import Mathlib

/-!
Shallow embedding of the talebook-mcp JSON-RPC dispatcher
(`src/mcp_service.py`, with the plain-HTTP adapter's dispatch from
`src/multi_transport_server.py` for comparison), and proofs of the
specified properties of `MCPService.handle_request`.

Decoded JSON values (what `json.loads` hands the dispatcher) are modelled
by the inductive `Json`; a decoded JSON object is a list of key/value
pairs with distinct keys, looked up like a Python `dict`.  Fallible
Python expressions are modelled in `Except String`, the `String` being
`str(e)` of the raised exception; the dispatcher's outermost
`try/except` is the `Except` eliminator in `handle_request`.  The only
randomness, `uuid.uuid4()`, is an oracle: the raw 16 random bytes are an
explicit argument and the version/variant masking and rendering of
CPython's `uuid` module are modelled by `uuid4String`.
-/

/-- A decoded JSON value (the result of Python's `json.loads`). -/
inductive Json where
  | null : Json
  | bool : Bool → Json
  | num : Int → Json
  | str : String → Json
  | arr : List Json → Json
  | obj : List (String × Json) → Json

/-- Python `v == s` for a string literal `s`: string equality when `v` is a
string, `False` for every other decoded JSON value (the only equality tests
the dispatcher performs compare against string literals). -/
def pyEqStr (v : Json) (s : String) : Bool :=
  match v with
  | .str t => t == s
  | _ => false

/-- Lookup in a decoded JSON object, as in a Python `dict` (keys are unique). -/
def dictGet (d : List (String × Json)) (k : String) : Option Json :=
  (d.find? (fun p => p.1 == k)).map (fun p => p.2)

/-- Python `d.get(k)` on a `dict`: the stored value, or `None` when the key is absent. -/
def pyDictGet (d : List (String × Json)) (k : String) : Json :=
  (dictGet d k).getD Json.null

/-- Python `d.get(k, default)` on a `dict`: the stored value (a stored `null` included), or `default` when the key is absent. -/
def pyDictGetD (d : List (String × Json)) (k : String) (dflt : Json) : Json :=
  (dictGet d k).getD dflt

/-- The Python type name of a decoded JSON value. -/
def pyTypeName : Json → String
  | .null => "NoneType"
  | .bool _ => "bool"
  | .num _ => "int"
  | .str _ => "str"
  | .arr _ => "list"
  | .obj _ => "dict"

/-- `str(e)` of the `AttributeError` CPython raises for `v.get(...)` when `v` is not a `dict`. -/
def noGetMsg (v : Json) : String :=
  "'" ++ pyTypeName v ++ "' object has no attribute 'get'"

/-- Python `v.get(k)` on an arbitrary value: raises `AttributeError` unless `v` is a `dict`. -/
def pyGet (v : Json) (k : String) : Except String Json :=
  match v with
  | .obj fs => .ok (pyDictGet fs k)
  | _ => .error (noGetMsg v)

/-- Python `v.get(k, default)` on an arbitrary value: raises `AttributeError` unless `v` is a `dict`. -/
def pyGetD (v : Json) (k : String) (dflt : Json) : Except String Json :=
  match v with
  | .obj fs => .ok (pyDictGetD fs k dflt)
  | _ => .error (noGetMsg v)

/-- Python `repr` of a string: CPython prefers single quotes and switches to
double quotes when the string holds a single quote but no double quote.
(Backslash and control-character escaping is not modelled; no theorem below
evaluates `repr` on strings containing such characters.) -/
def pyQuoteStr (s : String) : String :=
  if s.contains '\'' && !(s.contains '"') then "\"" ++ s ++ "\"" else "'" ++ s ++ "'"

mutual

/-- Python `repr` of a decoded JSON value. -/
def pyRepr : Json → String
  | .null => "None"
  | .bool true => "True"
  | .bool false => "False"
  | .num n => toString n
  | .str s => pyQuoteStr s
  | .arr xs => "[" ++ String.intercalate ", " (pyReprList xs) ++ "]"
  | .obj fs => "\x7b" ++ String.intercalate ", " (pyReprFields fs) ++ "\x7d"

/-- `repr` of each element of a decoded JSON array. -/
def pyReprList : List Json → List String
  | [] => []
  | v :: vs => pyRepr v :: pyReprList vs

/-- `repr` of each `key: value` entry of a decoded JSON object. -/
def pyReprFields : List (String × Json) → List String
  | [] => []
  | (k, v) :: fs => (pyQuoteStr k ++ ": " ++ pyRepr v) :: pyReprFields fs

end

/-- Python `str(v)` (also f-string interpolation) of a decoded JSON value. -/
def pyStr : Json → String
  | .null => "None"
  | .bool true => "True"
  | .bool false => "False"
  | .num n => toString n
  | .str s => s
  | .arr xs => pyRepr (.arr xs)
  | .obj fs => pyRepr (.obj fs)

/-- A tool descriptor (`mcp.types.Tool`): name, description, input schema. -/
structure Tool where
  name : String
  description : String
  inputSchema : Json

/-- `Tool.model_dump(exclude_none=True)`: the populated fields, in declaration order. -/
def Tool.model_dump (t : Tool) : Json :=
  Json.obj [("name", Json.str t.name), ("description", Json.str t.description),
            ("inputSchema", t.inputSchema)]

/-- A content item (`mcp.types.TextContent`). -/
structure TextContent where
  type : String
  text : String

/-- `MCPService.get_books_count`: the count is the constant 1, so the `try`
body cannot raise and the except branch is dead; the `arguments` map is
received but never read. -/
def get_books_count (arguments : Json) : List TextContent :=
  let books_count : Nat := 1
  [⟨"text", "Current books count: " ++ toString books_count⟩]

/-- `MCPService.list_tools`: the fixed registry of tool descriptors. -/
def list_tools : List Tool :=
  [⟨"get_books_count", "Get the current count of books in the collection",
    Json.obj [("type", Json.str "object"), ("properties", Json.obj []),
              ("required", Json.arr [])]⟩]

/-- `MCPService.create_initialization_options`.  The module draws
`session_id = str(uuid.uuid4())` at call time; the drawn string is an
explicit argument here (randomness is an oracle of the model). -/
def create_initialization_options (session_id : String) : Json :=
  Json.obj [("protocolVersion", Json.str "2024-11-05"),
            ("capabilities", Json.obj [("tools", Json.obj [])]),
            ("serverInfo", Json.obj [("name", Json.str "talebook-mcp"),
                                     ("version", Json.str "1.0.0")]),
            ("sessionId", Json.str session_id)]

/-- The response-envelope dict literal `{"jsonrpc": "2.0", "id": request_id, "result": result}`. -/
def mkResult (request_id : Json) (result : Json) : Json :=
  Json.obj [("jsonrpc", Json.str "2.0"), ("id", request_id), ("result", result)]

/-- The error-envelope dict literal `{"jsonrpc": "2.0", "id": request_id, "error": {"code": code, "message": message}}`. -/
def mkError (request_id : Json) (code : Int) (message : String) : Json :=
  Json.obj [("jsonrpc", Json.str "2.0"), ("id", request_id),
            ("error", Json.obj [("code", Json.num code), ("message", Json.str message)])]

/-- The body of `MCPService.handle_request` inside its `try`: the
method dispatch.  `request_data` is a decoded JSON object (the declared
`Dict[str, Any]` argument); exceptions raised while building the envelope
are the `.error` results. -/
def handle_request_body (session_id : String) (request_data : List (String × Json)) :
    Except String Json :=
  let method := pyDictGet request_data "method"
  let request_id := pyDictGet request_data "id"
  let params := pyDictGetD request_data "params" (Json.obj [])
  if pyEqStr method "initialize" then
    .ok (mkResult request_id (create_initialization_options session_id))
  else if pyEqStr method "tools/list" then
    .ok (mkResult request_id
      (Json.obj [("tools", Json.arr (list_tools.map Tool.model_dump))]))
  else if pyEqStr method "tools/call" then
    match pyGet params "name" with
    | .error e => .error e
    | .ok tool_name =>
      match pyGetD params "arguments" (Json.obj []) with
      | .error e => .error e
      | .ok arguments =>
        if pyEqStr tool_name "get_books_count" then
          match get_books_count arguments with
          | [] => .error "list index out of range"
          | c :: _ =>
            .ok (mkResult request_id
              (Json.obj [("content",
                Json.arr [Json.obj [("type", Json.str "text"), ("text", Json.str c.text)]])]))
        else
          .ok (mkError request_id (-32601) ("Unknown tool: " ++ pyStr tool_name))
  else
    .ok (mkError request_id (-32601) ("Method not found: " ++ pyStr method))

/-- `MCPService.handle_request`: the dispatch wrapped in the outermost
`try/except Exception`, which converts any raised exception `e` into the
error envelope with code -32603 and message `f"Internal error: {str(e)}"`. -/
def handle_request (session_id : String) (request_data : List (String × Json)) : Json :=
  match handle_request_body session_id request_data with
  | .ok response => response
  | .error e => mkError (pyDictGet request_data "id") (-32603) ("Internal error: " ++ e)

/-- The dispatch of the plain-HTTP adapter `handle_simple_http` in
`src/multi_transport_server.py`, after `json.loads`: unlike
`MCPService.handle_request` it accepts the `mcp:`-prefixed method-name
aliases, but it answers `tools/list` without the `inputSchema` field, calls
the tool with `{}` in place of the request's arguments, and reports an
unknown method without naming it. -/
def handle_simple_http (session_id : String) (request_data : List (String × Json)) :
    Except String Json :=
  let method := pyDictGet request_data "method"
  let request_id := pyDictGet request_data "id"
  if pyEqStr method "initialize" then
    .ok (mkResult request_id (create_initialization_options session_id))
  else if pyEqStr method "tools/list" || pyEqStr method "mcp:list-tools" then
    .ok (mkResult request_id
      (Json.obj [("tools", Json.arr (list_tools.map (fun t =>
        Json.obj [("name", Json.str t.name), ("description", Json.str t.description)])))]))
  else if pyEqStr method "tools/call" || pyEqStr method "mcp:call-tool" then
    match pyGet (pyDictGetD request_data "params" (Json.obj [])) "name" with
    | .error e => .error e
    | .ok tool_name =>
      if pyEqStr tool_name "get_books_count" then
        match get_books_count (Json.obj []) with
        | [] => .error "list index out of range"
        | c :: _ =>
          .ok (mkResult request_id
            (Json.obj [("content",
              Json.arr [Json.obj [("type", Json.str "text"), ("text", Json.str c.text)]])]))
      else
        .ok (mkError request_id (-32601) ("Unknown tool: " ++ pyStr tool_name))
  else
    .ok (mkError request_id (-32601) "Method not found")

/-- Lookup of a top-level field of a returned envelope (`response[k]` on the
dict the dispatcher returns). -/
def respLookup (resp : Json) (k : String) : Option Json :=
  match resp with
  | .obj fs => dictGet fs k
  | _ => none

/-- The lowercase hexadecimal digit character for a nibble (`n < 16`). -/
def hexDigitChar (n : Nat) : Char :=
  if n < 10 then Char.ofNat (48 + n) else Char.ofNat (87 + n)

/-- The two lowercase hex characters of a byte. -/
def byteHexChars (b : Nat) : List Char :=
  [hexDigitChar (b / 16), hexDigitChar (b % 16)]

/-- The lowercase hex rendering of a byte sequence. -/
def bytesHex : List Nat → List Char
  | [] => []
  | b :: bs => byteHexChars b ++ bytesHex bs

/-- Byte `i` (big-endian, `i < 16`) of the 128-bit value `n`. -/
def uuidByte (n : Nat) (i : Nat) : Nat :=
  n / 256 ^ (15 - i) % 256

/-- The 16 bytes of `uuid.UUID(bytes=os.urandom(16), version=4)`, the raw
random draw given as the 128-bit big-endian value `r`: byte 6 keeps its low
nibble and has its high nibble forced to 4 (the version), byte 8 keeps its
low six bits and has its top two bits forced to `10` (the variant), exactly
as CPython's `uuid` module masks the integer. -/
def uuid4Bytes (r : Nat) : List Nat :=
  let n := r % 2 ^ 128
  [uuidByte n 0, uuidByte n 1, uuidByte n 2, uuidByte n 3,
   uuidByte n 4, uuidByte n 5,
   uuidByte n 6 % 16 + 64, uuidByte n 7,
   uuidByte n 8 % 64 + 128, uuidByte n 9,
   uuidByte n 10, uuidByte n 11, uuidByte n 12, uuidByte n 13,
   uuidByte n 14, uuidByte n 15]

/-- The character sequence of `str(uuid)`: the 32 lowercase hex digits of the
16 bytes, hyphenated into 8-4-4-4-12 groups. -/
def uuidChars (bs : List Nat) : List Char :=
  match bs with
  | [b0, b1, b2, b3, b4, b5, b6, b7, b8, b9, b10, b11, b12, b13, b14, b15] =>
    bytesHex [b0, b1, b2, b3] ++ '-' ::
      (bytesHex [b4, b5] ++ '-' ::
        (bytesHex [b6, b7] ++ '-' ::
          (bytesHex [b8, b9] ++ '-' ::
            bytesHex [b10, b11, b12, b13, b14, b15])))
  | _ => []

/-- `str(uuid.uuid4())` as a function of the raw 128-bit random draw `r`. -/
def uuid4String (r : Nat) : String :=
  String.mk (uuidChars (uuid4Bytes r))

/-- The nibble value of a lowercase hex digit character (decoder for the
injectivity proof). -/
def unhexChar (c : Char) : Nat :=
  if 97 ≤ c.toNat then c.toNat - 87 else c.toNat - 48

/-- Drop the hyphens of a rendered UUID. -/
def dehyphen (cs : List Char) : List Char :=
  cs.filter (fun c => c != '-')

/-- Decode consecutive pairs of hex digit characters back into bytes. -/
def pairBytes : List Char → List Nat
  | a :: b :: rest => (unhexChar a * 16 + unhexChar b) :: pairBytes rest
  | _ => []

/-- A lowercase hexadecimal digit character. -/
def isLowerHexDigit (c : Char) : Bool :=
  decide ((48 ≤ c.toNat ∧ c.toNat ≤ 57) ∨ (97 ≤ c.toNat ∧ c.toNat ≤ 102))

/-- The shape of a rendered version-4 UUID: five hyphen-separated groups of
8, 4, 4, 4 and 12 lowercase hex digits, the third group starting with the
version digit `4` and the fourth with a variant digit in `8`, `9`, `a`, `b`. -/
def uuidFormat (s : String) : Prop :=
  ∃ g1 g2 g3 g4 g5 : List Char,
    s.data = g1 ++ '-' :: (g2 ++ '-' :: (g3 ++ '-' :: (g4 ++ '-' :: g5))) ∧
    g1.length = 8 ∧ g2.length = 4 ∧ g3.length = 4 ∧ g4.length = 4 ∧ g5.length = 12 ∧
    g1.all isLowerHexDigit = true ∧ g2.all isLowerHexDigit = true ∧
    g3.all isLowerHexDigit = true ∧ g4.all isLowerHexDigit = true ∧
    g5.all isLowerHexDigit = true ∧
    g3.head? = some '4' ∧
    (g4.head? = some '8' ∨ g4.head? = some '9' ∨ g4.head? = some 'a' ∨ g4.head? = some 'b')

theorem unhex_hexDigitChar {n : Nat} (h : n < 16) : unhexChar (hexDigitChar n) = n := by
  interval_cases n <;> rfl

theorem hexDigitChar_ne_hyphen {n : Nat} (h : n < 16) : (hexDigitChar n != '-') = true := by
  interval_cases n <;> rfl

theorem isLowerHexDigit_hexDigitChar {n : Nat} (h : n < 16) :
    isLowerHexDigit (hexDigitChar n) = true := by
  interval_cases n <;> rfl

theorem uuidByte_lt (n i : Nat) : uuidByte n i < 256 :=
  Nat.mod_lt _ (by norm_num)

theorem dehyphen_hyphen (cs : List Char) : dehyphen ('-' :: cs) = dehyphen cs := by
  simp [dehyphen]

theorem dehyphen_byte {b : Nat} (hb : b < 256) (cs : List Char) :
    dehyphen (byteHexChars b ++ cs) = byteHexChars b ++ dehyphen cs := by
  have h1 : b / 16 < 16 := by omega
  have h2 : b % 16 < 16 := by omega
  simp [dehyphen, byteHexChars, List.filter_cons, hexDigitChar_ne_hyphen h1,
    hexDigitChar_ne_hyphen h2]

theorem pairBytes_byte {b : Nat} (hb : b < 256) (cs : List Char) :
    pairBytes (byteHexChars b ++ cs) = b :: pairBytes cs := by
  have h1 : b / 16 < 16 := by omega
  have h2 : b % 16 < 16 := by omega
  simp [byteHexChars, pairBytes, unhex_hexDigitChar h1, unhex_hexDigitChar h2]
  omega

theorem dehyphen_bytesHex (bs : List Nat) (cs : List Char) (h : ∀ b ∈ bs, b < 256) :
    dehyphen (bytesHex bs ++ cs) = bytesHex bs ++ dehyphen cs := by
  induction bs with
  | nil => simp [bytesHex]
  | cons b rest ih =>
    have hb : b < 256 := h b (by simp)
    have hrest : ∀ x ∈ rest, x < 256 := fun x hx => h x (by simp [hx])
    simp only [bytesHex, List.append_assoc]
    rw [dehyphen_byte hb, ih hrest]

theorem dehyphen_bytesHex_nil (bs : List Nat) (h : ∀ b ∈ bs, b < 256) :
    dehyphen (bytesHex bs) = bytesHex bs := by
  have := dehyphen_bytesHex bs [] h
  simpa [dehyphen] using this

theorem pairBytes_bytesHex (bs : List Nat) (cs : List Char) (h : ∀ b ∈ bs, b < 256) :
    pairBytes (bytesHex bs ++ cs) = bs ++ pairBytes cs := by
  induction bs with
  | nil => simp [bytesHex]
  | cons b rest ih =>
    have hb : b < 256 := h b (by simp)
    have hrest : ∀ x ∈ rest, x < 256 := fun x hx => h x (by simp [hx])
    simp only [bytesHex, List.append_assoc]
    rw [pairBytes_byte hb, ih hrest]
    simp

theorem pairBytes_bytesHex_nil (bs : List Nat) (h : ∀ b ∈ bs, b < 256) :
    pairBytes (bytesHex bs) = bs := by
  have := pairBytes_bytesHex bs [] h
  simpa [pairBytes] using this

theorem uuid4Bytes_lt (r : Nat) : ∀ b ∈ uuid4Bytes r, b < 256 := by
  intro b hb
  simp [uuid4Bytes] at hb
  rcases hb with rfl | rfl | rfl | rfl | rfl | rfl | rfl | rfl | rfl | rfl | rfl | rfl | rfl | rfl | rfl | rfl
  all_goals first
    | exact uuidByte_lt _ _
    | omega

theorem pairBytes_dehyphen_uuid (r : Nat) :
    pairBytes (dehyphen (uuidChars (uuid4Bytes r))) = uuid4Bytes r := by
  have hlt := uuid4Bytes_lt r
  simp only [uuid4Bytes] at hlt ⊢
  set n := r % 2 ^ 128 with hn
  simp only [uuidChars]
  have l256 : ∀ s : List Nat, (∀ b ∈ s, b ∈ ([uuidByte n 0, uuidByte n 1, uuidByte n 2,
      uuidByte n 3, uuidByte n 4, uuidByte n 5, uuidByte n 6 % 16 + 64, uuidByte n 7,
      uuidByte n 8 % 64 + 128, uuidByte n 9, uuidByte n 10, uuidByte n 11, uuidByte n 12,
      uuidByte n 13, uuidByte n 14, uuidByte n 15] : List Nat)) → ∀ b ∈ s, b < 256 :=
    fun s hs b hb => hlt b (hs b hb)
  rw [dehyphen_bytesHex _ _ (l256 _ (by intro b hb; simp at hb ⊢; tauto)),
    dehyphen_hyphen,
    dehyphen_bytesHex _ _ (l256 _ (by intro b hb; simp at hb ⊢; tauto)),
    dehyphen_hyphen,
    dehyphen_bytesHex _ _ (l256 _ (by intro b hb; simp at hb ⊢; tauto)),
    dehyphen_hyphen,
    dehyphen_bytesHex _ _ (l256 _ (by intro b hb; simp at hb ⊢; tauto)),
    dehyphen_hyphen,
    dehyphen_bytesHex_nil _ (l256 _ (by intro b hb; simp at hb ⊢; tauto))]
  rw [pairBytes_bytesHex _ _ (l256 _ (by intro b hb; simp at hb ⊢; tauto)),
    pairBytes_bytesHex _ _ (l256 _ (by intro b hb; simp at hb ⊢; tauto)),
    pairBytes_bytesHex _ _ (l256 _ (by intro b hb; simp at hb ⊢; tauto)),
    pairBytes_bytesHex _ _ (l256 _ (by intro b hb; simp at hb ⊢; tauto)),
    pairBytes_bytesHex_nil _ (l256 _ (by intro b hb; simp at hb ⊢; tauto))]
  simp

theorem uuid4String_ne_of_bytes_ne {r1 r2 : Nat} (h : uuid4Bytes r1 ≠ uuid4Bytes r2) :
    uuid4String r1 ≠ uuid4String r2 := by
  intro he
  apply h
  have hd : uuidChars (uuid4Bytes r1) = uuidChars (uuid4Bytes r2) := congrArg String.data he
  calc uuid4Bytes r1
      = pairBytes (dehyphen (uuidChars (uuid4Bytes r1))) := (pairBytes_dehyphen_uuid r1).symm
    _ = pairBytes (dehyphen (uuidChars (uuid4Bytes r2))) := by rw [hd]
    _ = uuid4Bytes r2 := pairBytes_dehyphen_uuid r2

theorem bytesHex_all (bs : List Nat) (h : ∀ b ∈ bs, b < 256) :
    (bytesHex bs).all isLowerHexDigit = true := by
  induction bs with
  | nil => rfl
  | cons b rest ih =>
    have hb : b < 256 := h b (by simp)
    have h1 : b / 16 < 16 := by omega
    have h2 : b % 16 < 16 := by omega
    have hrest : ∀ x ∈ rest, x < 256 := fun x hx => h x (by simp [hx])
    simp [bytesHex, byteHexChars, isLowerHexDigit_hexDigitChar h1,
      isLowerHexDigit_hexDigitChar h2, ih hrest]

theorem uuid4String_format (r : Nat) :
    uuidFormat (uuid4String r) ∧ (uuid4String r).length = 36 := by
  have hlt := uuid4Bytes_lt r
  simp only [uuid4Bytes] at hlt
  constructor
  · refine ⟨bytesHex [uuidByte (r % 2 ^ 128) 0, uuidByte (r % 2 ^ 128) 1,
        uuidByte (r % 2 ^ 128) 2, uuidByte (r % 2 ^ 128) 3],
      bytesHex [uuidByte (r % 2 ^ 128) 4, uuidByte (r % 2 ^ 128) 5],
      bytesHex [uuidByte (r % 2 ^ 128) 6 % 16 + 64, uuidByte (r % 2 ^ 128) 7],
      bytesHex [uuidByte (r % 2 ^ 128) 8 % 64 + 128, uuidByte (r % 2 ^ 128) 9],
      bytesHex [uuidByte (r % 2 ^ 128) 10, uuidByte (r % 2 ^ 128) 11,
        uuidByte (r % 2 ^ 128) 12, uuidByte (r % 2 ^ 128) 13,
        uuidByte (r % 2 ^ 128) 14, uuidByte (r % 2 ^ 128) 15],
      rfl, ?_, ?_, ?_, ?_, ?_, ?_, ?_, ?_, ?_, ?_, ?_, ?_⟩
    · simp [bytesHex, byteHexChars]
    · simp [bytesHex, byteHexChars]
    · simp [bytesHex, byteHexChars]
    · simp [bytesHex, byteHexChars]
    · simp [bytesHex, byteHexChars]
    · apply bytesHex_all
      intro b hb
      simp at hb
      rcases hb with rfl | rfl | rfl | rfl <;> exact uuidByte_lt _ _
    · apply bytesHex_all
      intro b hb
      simp at hb
      rcases hb with rfl | rfl <;> exact uuidByte_lt _ _
    · apply bytesHex_all
      intro b hb
      simp at hb
      rcases hb with rfl | rfl
      · omega
      · exact uuidByte_lt _ _
    · apply bytesHex_all
      intro b hb
      simp at hb
      rcases hb with rfl | rfl
      · omega
      · exact uuidByte_lt _ _
    · apply bytesHex_all
      intro b hb
      simp at hb
      rcases hb with rfl | rfl | rfl | rfl | rfl | rfl <;> exact uuidByte_lt _ _
    · have h4 : (uuidByte (r % 2 ^ 128) 6 % 16 + 64) / 16 = 4 := by omega
      simp only [bytesHex, byteHexChars, List.cons_append, List.nil_append, List.head?_cons]
      rw [h4]
      decide
    · have hq : (uuidByte (r % 2 ^ 128) 8 % 64 + 128) / 16 = 8 ∨
          (uuidByte (r % 2 ^ 128) 8 % 64 + 128) / 16 = 9 ∨
          (uuidByte (r % 2 ^ 128) 8 % 64 + 128) / 16 = 10 ∨
          (uuidByte (r % 2 ^ 128) 8 % 64 + 128) / 16 = 11 := by omega
      simp only [bytesHex, byteHexChars, List.cons_append, List.nil_append, List.head?_cons]
      rcases hq with h | h | h | h <;> rw [h] <;> decide
  · show (uuidChars (uuid4Bytes r)).length = 36
    simp [uuidChars, uuid4Bytes, bytesHex, byteHexChars]

theorem books_text :
    "Current books count: " ++ toString (1 : Nat) = "Current books count: 1" := rfl

theorem hr_init (sid : String) (req : List (String × Json))
    (h : pyDictGet req "method" = Json.str "initialize") :
    handle_request sid req
      = mkResult (pyDictGet req "id") (create_initialization_options sid) := by
  simp [handle_request, handle_request_body, h, pyEqStr]

theorem hr_list (sid : String) (req : List (String × Json))
    (h : pyDictGet req "method" = Json.str "tools/list") :
    handle_request sid req = mkResult (pyDictGet req "id")
      (Json.obj [("tools", Json.arr (list_tools.map Tool.model_dump))]) := by
  simp [handle_request, handle_request_body, h, pyEqStr]

theorem hr_call_books (sid : String) (req ps : List (String × Json))
    (hm : pyDictGet req "method" = Json.str "tools/call")
    (hp : pyDictGetD req "params" (Json.obj []) = Json.obj ps)
    (hn : pyDictGet ps "name" = Json.str "get_books_count") :
    handle_request sid req = mkResult (pyDictGet req "id")
      (Json.obj [("content", Json.arr [Json.obj [("type", Json.str "text"),
        ("text", Json.str "Current books count: 1")]])]) := by
  simp [handle_request, handle_request_body, hm, hp, hn, pyEqStr, pyGet, pyGetD,
    get_books_count, books_text]

theorem hr_call_unknown (sid : String) (req ps : List (String × Json)) (name : String)
    (hm : pyDictGet req "method" = Json.str "tools/call")
    (hp : pyDictGetD req "params" (Json.obj []) = Json.obj ps)
    (hn : pyDictGet ps "name" = Json.str name)
    (hne : name ≠ "get_books_count") :
    handle_request sid req = mkError (pyDictGet req "id") (-32601)
      ("Unknown tool: " ++ name) := by
  simp [handle_request, handle_request_body, hm, hp, hn, pyEqStr, pyGet, pyGetD, pyStr, hne]

theorem hr_not_found (sid : String) (req : List (String × Json)) (m : String)
    (hm : pyDictGet req "method" = Json.str m)
    (h1 : m ≠ "initialize") (h2 : m ≠ "tools/list") (h3 : m ≠ "tools/call") :
    handle_request sid req = mkError (pyDictGet req "id") (-32601)
      ("Method not found: " ++ m) := by
  simp [handle_request, handle_request_body, hm, pyEqStr, pyStr, h1, h2, h3]

theorem hrb_shape (sid : String) (req : List (String × Json)) :
    (∃ v, handle_request_body sid req = .ok (mkResult (pyDictGet req "id") v)) ∨
    (∃ c msg, handle_request_body sid req = .ok (mkError (pyDictGet req "id") c msg)) ∨
    (∃ e, handle_request_body sid req = .error e) := by
  unfold handle_request_body
  dsimp only
  repeat' split
  all_goals first
    | exact .inl ⟨_, rfl⟩
    | exact .inr (.inl ⟨_, _, rfl⟩)
    | exact .inr (.inr ⟨_, rfl⟩)

theorem hr_shape (sid : String) (req : List (String × Json)) :
    (∃ v, handle_request sid req = mkResult (pyDictGet req "id") v) ∨
    (∃ c msg, handle_request sid req = mkError (pyDictGet req "id") c msg) := by
  rcases hrb_shape sid req with ⟨v, h⟩ | ⟨c, msg, h⟩ | ⟨e, h⟩
  · exact .inl ⟨v, by unfold handle_request; rw [h]⟩
  · exact .inr ⟨c, msg, by unfold handle_request; rw [h]⟩
  · exact .inr ⟨-32603, "Internal error: " ++ e, by unfold handle_request; rw [h]⟩

theorem respLookup_mkResult_id (rid v : Json) : respLookup (mkResult rid v) "id" = some rid := rfl

theorem respLookup_mkError_id (rid : Json) (c : Int) (m : String) :
    respLookup (mkError rid c m) "id" = some rid := rfl

/-- C1: the claim that dispatching `mcp:list-tools` (resp. `mcp:call-tool`)
returns a result identical to `tools/list` (resp. `tools/call`) fails on
`MCPService.handle_request`: the MCP-prefixed aliases fall through to the
method-not-found branch, although the function's own comments announce
support for both names and the repository's tests assert the aliases work.
The plain-HTTP adapter's dispatch (`handle_simple_http`) does treat the
aliases identically, as shown by the last two conjuncts: the dispatcher of
`mcp_service.py` contradicts the repository's documentation and tests. -/
theorem c1_mcp_aliases_rejected_by_dispatcher :
    handle_request "S" [("jsonrpc", Json.str "2.0"), ("id", Json.num 1),
        ("method", Json.str "mcp:list-tools"), ("params", Json.obj [])]
      = mkError (Json.num 1) (-32601) "Method not found: mcp:list-tools" ∧
    handle_request "S" [("jsonrpc", Json.str "2.0"), ("id", Json.num 1),
        ("method", Json.str "tools/list"), ("params", Json.obj [])]
      ≠ handle_request "S" [("jsonrpc", Json.str "2.0"), ("id", Json.num 1),
        ("method", Json.str "mcp:list-tools"), ("params", Json.obj [])] ∧
    handle_request "S" [("jsonrpc", Json.str "2.0"), ("id", Json.num 2),
        ("method", Json.str "mcp:call-tool"),
        ("params", Json.obj [("name", Json.str "get_books_count"), ("arguments", Json.obj [])])]
      = mkError (Json.num 2) (-32601) "Method not found: mcp:call-tool" ∧
    handle_simple_http "S" [("jsonrpc", Json.str "2.0"), ("id", Json.num 1),
        ("method", Json.str "mcp:list-tools"), ("params", Json.obj [])]
      = handle_simple_http "S" [("jsonrpc", Json.str "2.0"), ("id", Json.num 1),
        ("method", Json.str "tools/list"), ("params", Json.obj [])] ∧
    handle_simple_http "S" [("jsonrpc", Json.str "2.0"), ("id", Json.num 2),
        ("method", Json.str "mcp:call-tool"),
        ("params", Json.obj [("name", Json.str "get_books_count"), ("arguments", Json.obj [])])]
      = handle_simple_http "S" [("jsonrpc", Json.str "2.0"), ("id", Json.num 2),
        ("method", Json.str "tools/call"),
        ("params", Json.obj [("name", Json.str "get_books_count"), ("arguments", Json.obj [])])] := by
  refine ⟨rfl, fun h => ?_, rfl, rfl, rfl⟩
  have h2 : (some (Json.obj [("tools", Json.arr (list_tools.map Tool.model_dump))]) :
      Option Json) = none := congrArg (fun j => respLookup j "result") h
  exact Option.noConfusion h2

/-- C2: the returned envelope carries the request identifier verbatim: for
every request object, the `id` field of the dispatcher's response equals the
stored `id` value when one is present (a string, number or null alike), and
is null when the field is omitted — Python's `request_data.get("id")` maps
both an absent and a null identifier to `None`, which serializes back to
null, so an absent-or-null identifier round-trips within that class. -/
theorem c2_id_echoed_verbatim (sid : String) (req : List (String × Json)) :
    respLookup (handle_request sid req) "id" = some ((dictGet req "id").getD Json.null) := by
  rcases hr_shape sid req with ⟨v, h⟩ | ⟨c, msg, h⟩ <;> rw [h] <;> rfl

/-- C3 (amended): every exception raised during dispatch is caught at the
outermost boundary and converted to an error envelope with code -32603 whose
message is `"Internal error: "` followed by the exception's message (not the
bare exception message, as the claim stated); the dispatcher is a total
function, so no input lets an exception escape: every dispatch either
returns the `try` body's envelope or that -32603 envelope. -/
theorem c3_dispatch_catches_every_exception (sid : String) (req : List (String × Json)) :
    (∃ r, handle_request_body sid req = .ok r ∧ handle_request sid req = r) ∨
    (∃ e, handle_request_body sid req = .error e ∧
      handle_request sid req
        = mkError (pyDictGet req "id") (-32603) ("Internal error: " ++ e)) := by
  cases h : handle_request_body sid req with
  | ok r => exact .inl ⟨r, rfl, by unfold handle_request; rw [h]⟩
  | error e => exact .inr ⟨e, rfl, by unfold handle_request; rw [h]⟩

/-- C3 counterexample: a `tools/call` request whose `params` is the string
`"boom"` makes `params.get("name")` raise an AttributeError; the dispatcher
returns code -32603 as claimed, but the envelope's message prefixes
`"Internal error: "` to the exception's message instead of being the
exception's message itself. -/
theorem c3_message_is_not_the_exception_message :
    handle_request_body "S" [("method", Json.str "tools/call"), ("id", Json.num 7),
        ("params", Json.str "boom")]
      = .error "'str' object has no attribute 'get'" ∧
    handle_request "S" [("method", Json.str "tools/call"), ("id", Json.num 7),
        ("params", Json.str "boom")]
      = mkError (Json.num 7) (-32603)
          ("Internal error: " ++ "'str' object has no attribute 'get'") ∧
    "Internal error: " ++ "'str' object has no attribute 'get'"
      ≠ "'str' object has no attribute 'get'" :=
  ⟨rfl, rfl, by decide⟩

/-- C4: a request whose method is a string that is none of the five
recognized names is answered with an error envelope carrying code -32601 and
message exactly `"Method not found: "` followed by the requested method
name. -/
theorem c4_unrecognized_method_error (sid : String) (req : List (String × Json)) (m : String)
    (hm : pyDictGet req "method" = Json.str m)
    (h1 : m ≠ "initialize") (h2 : m ≠ "tools/list") (h3 : m ≠ "mcp:list-tools")
    (h4 : m ≠ "tools/call") (h5 : m ≠ "mcp:call-tool") :
    handle_request sid req
      = mkError (pyDictGet req "id") (-32601) ("Method not found: " ++ m) :=
  hr_not_found sid req m hm h1 h2 h4

theorem c4_unrecognized_method_error_witness :
    handle_request "S" [("method", Json.str "foo/bar"), ("id", Json.num 1)]
      = mkError (Json.num 1) (-32601) ("Method not found: " ++ "foo/bar") :=
  c4_unrecognized_method_error "S" [("method", Json.str "foo/bar"), ("id", Json.num 1)]
    "foo/bar" rfl (by decide) (by decide) (by decide) (by decide) (by decide)

/-- C5: every `tools/call` request whose `params.name` is
`"get_books_count"` is answered with a response envelope whose result is
exactly the single text content item `"Current books count: 1"`, whatever
the arguments map holds. -/
theorem c5_books_count_result (sid : String) (req ps : List (String × Json))
    (hm : pyDictGet req "method" = Json.str "tools/call")
    (hp : pyDictGetD req "params" (Json.obj []) = Json.obj ps)
    (hn : pyDictGet ps "name" = Json.str "get_books_count") :
    handle_request sid req = mkResult (pyDictGet req "id")
      (Json.obj [("content", Json.arr [Json.obj [("type", Json.str "text"),
        ("text", Json.str "Current books count: 1")]])]) :=
  hr_call_books sid req ps hm hp hn

theorem c5_books_count_result_witness :
    handle_request "S" [("method", Json.str "tools/call"), ("id", Json.num 2),
        ("params", Json.obj [("name", Json.str "get_books_count"), ("arguments", Json.obj [])])]
      = mkResult (Json.num 2)
          (Json.obj [("content", Json.arr [Json.obj [("type", Json.str "text"),
            ("text", Json.str "Current books count: 1")]])]) :=
  c5_books_count_result "S" _ [("name", Json.str "get_books_count"), ("arguments", Json.obj [])]
    rfl rfl rfl

/-- C6: every `tools/call` request whose `params.name` is a string that is
not the name of a registered tool (the only registered tool is
`get_books_count`) is answered with an error envelope carrying code -32601
whose message `"Unknown tool: "` followed by the name contains the requested
name. -/
theorem c6_unknown_tool_error (sid : String) (req ps : List (String × Json)) (name : String)
    (hm : pyDictGet req "method" = Json.str "tools/call")
    (hp : pyDictGetD req "params" (Json.obj []) = Json.obj ps)
    (hn : pyDictGet ps "name" = Json.str name)
    (hne : name ≠ "get_books_count") :
    handle_request sid req
      = mkError (pyDictGet req "id") (-32601) ("Unknown tool: " ++ name) ∧
    ∃ pre post, "Unknown tool: " ++ name = pre ++ name ++ post :=
  ⟨hr_call_unknown sid req ps name hm hp hn hne, "Unknown tool: ", "", by simp⟩

theorem c6_unknown_tool_error_witness :
    handle_request "S" [("method", Json.str "tools/call"), ("id", Json.str "x"),
        ("params", Json.obj [("name", Json.str "nope")])]
      = mkError (Json.str "x") (-32601) ("Unknown tool: " ++ "nope") ∧
    ∃ pre post, "Unknown tool: " ++ "nope" = pre ++ "nope" ++ post :=
  c6_unknown_tool_error "S" _ [("name", Json.str "nope")] "nope" rfl rfl rfl (by decide)

/-- C7: every initialize request returns a response envelope whose result
carries protocolVersion exactly "2024-11-05", capabilities exactly the
object with the empty "tools" object, serverInfo exactly name
"talebook-mcp" / version "1.0.0", and a sessionId that is a freshly drawn
version-4 UUID rendered as a lowercase hyphenated 8-4-4-4-12 hex string
(version digit 4, variant digit 8/9/a/b); two calls whose masked random
draws differ render distinct session identifiers.  Randomness is an oracle:
`r` and `r2` are the raw 128-bit values of the two calls' `os.urandom(16)`. -/
theorem c7_init_result (r r2 : Nat) (req : List (String × Json))
    (hm : pyDictGet req "method" = Json.str "initialize") :
    handle_request (uuid4String r) req = mkResult (pyDictGet req "id")
      (Json.obj [("protocolVersion", Json.str "2024-11-05"),
        ("capabilities", Json.obj [("tools", Json.obj [])]),
        ("serverInfo", Json.obj [("name", Json.str "talebook-mcp"),
          ("version", Json.str "1.0.0")]),
        ("sessionId", Json.str (uuid4String r))]) ∧
    uuidFormat (uuid4String r) ∧ (uuid4String r).length = 36 ∧
    (uuid4Bytes r ≠ uuid4Bytes r2 → uuid4String r ≠ uuid4String r2) :=
  ⟨hr_init _ req hm, (uuid4String_format r).1, (uuid4String_format r).2,
    fun h => uuid4String_ne_of_bytes_ne h⟩

theorem c7_init_result_witness :
    uuid4Bytes 0 ≠ uuid4Bytes 1 ∧ uuid4String 0 ≠ uuid4String 1 ∧
    handle_request (uuid4String 0) [("method", Json.str "initialize")]
      = mkResult Json.null
          (Json.obj [("protocolVersion", Json.str "2024-11-05"),
            ("capabilities", Json.obj [("tools", Json.obj [])]),
            ("serverInfo", Json.obj [("name", Json.str "talebook-mcp"),
              ("version", Json.str "1.0.0")]),
            ("sessionId", Json.str (uuid4String 0))]) := by
  have h := c7_init_result 0 1 [("method", Json.str "initialize")] rfl
  exact ⟨by decide, h.2.2.2 (by decide), h.1⟩

/-- C8: any two `tools/list` dispatches return identical tool collections,
and that collection is exactly one descriptor, `get_books_count`, with its
description and input schema. -/
theorem c8_tools_list_idempotent (sid sid2 : String) (req req2 : List (String × Json))
    (h : pyDictGet req "method" = Json.str "tools/list")
    (h2 : pyDictGet req2 "method" = Json.str "tools/list") :
    respLookup (handle_request sid req) "result"
      = respLookup (handle_request sid2 req2) "result" ∧
    respLookup (handle_request sid req) "result"
      = some (Json.obj [("tools", Json.arr [Json.obj
          [("name", Json.str "get_books_count"),
           ("description", Json.str "Get the current count of books in the collection"),
           ("inputSchema", Json.obj [("type", Json.str "object"),
             ("properties", Json.obj []), ("required", Json.arr [])])]])]) := by
  rw [hr_list sid req h, hr_list sid2 req2 h2]
  exact ⟨rfl, rfl⟩

theorem c8_tools_list_idempotent_witness :
    respLookup (handle_request "A"
        [("method", Json.str "tools/list"), ("id", Json.num 1)]) "result"
      = respLookup (handle_request "B"
        [("method", Json.str "tools/list"), ("id", Json.str "two")]) "result" ∧
    respLookup (handle_request "A"
        [("method", Json.str "tools/list"), ("id", Json.num 1)]) "result"
      = some (Json.obj [("tools", Json.arr [Json.obj
          [("name", Json.str "get_books_count"),
           ("description", Json.str "Get the current count of books in the collection"),
           ("inputSchema", Json.obj [("type", Json.str "object"),
             ("properties", Json.obj []), ("required", Json.arr [])])]])]) :=
  c8_tools_list_idempotent "A" "B" _ _ rfl rfl

/-- C9: every envelope the dispatcher returns carries the protocol tag
"2.0" and exactly one of a result field or an error field, never both and
never neither. -/
theorem c9_envelope_well_formed (sid : String) (req : List (String × Json)) :
    respLookup (handle_request sid req) "jsonrpc" = some (Json.str "2.0") ∧
    ((∃ v, respLookup (handle_request sid req) "result" = some v) ∧
        respLookup (handle_request sid req) "error" = none ∨
      (∃ v, respLookup (handle_request sid req) "error" = some v) ∧
        respLookup (handle_request sid req) "result" = none) := by
  rcases hr_shape sid req with ⟨v, h⟩ | ⟨c, msg, h⟩ <;> rw [h]
  · exact ⟨rfl, .inl ⟨⟨v, rfl⟩, rfl⟩⟩
  · exact ⟨rfl, .inr ⟨⟨_, rfl⟩, rfl⟩⟩

/-- C10: the result of a `tools/call` naming `get_books_count` does not
depend on the arguments map: any two such dispatches — arguments absent,
empty or arbitrary — return identical results. -/
theorem c10_books_result_independent_of_arguments (sid sid2 : String)
    (req req2 ps ps2 : List (String × Json))
    (hm : pyDictGet req "method" = Json.str "tools/call")
    (hp : pyDictGetD req "params" (Json.obj []) = Json.obj ps)
    (hn : pyDictGet ps "name" = Json.str "get_books_count")
    (hm2 : pyDictGet req2 "method" = Json.str "tools/call")
    (hp2 : pyDictGetD req2 "params" (Json.obj []) = Json.obj ps2)
    (hn2 : pyDictGet ps2 "name" = Json.str "get_books_count") :
    respLookup (handle_request sid req) "result"
      = respLookup (handle_request sid2 req2) "result" := by
  rw [hr_call_books sid req ps hm hp hn, hr_call_books sid2 req2 ps2 hm2 hp2 hn2]
  rfl

theorem c10_books_result_independent_of_arguments_witness :
    respLookup (handle_request "S" [("method", Json.str "tools/call"), ("id", Json.num 1),
        ("params", Json.obj [("name", Json.str "get_books_count")])]) "result"
      = respLookup (handle_request "T" [("method", Json.str "tools/call"), ("id", Json.num 2),
        ("params", Json.obj [("name", Json.str "get_books_count"),
          ("arguments", Json.obj [("junk", Json.arr [Json.num 5])])])]) "result" :=
  c10_books_result_independent_of_arguments "S" "T" _ _
    [("name", Json.str "get_books_count")]
    [("name", Json.str "get_books_count"), ("arguments", Json.obj [("junk", Json.arr [Json.num 5])])]
    rfl rfl rfl rfl rfl rfl
